import Mathlib

/-
Verification of the MEMS mirror driver controller
(src/MEMS_serial_device.py, class MEMS_device).

The Python class is embedded as pure state-passing functions.  The serial
transport is an external collaborator: each operation receives, as an extra
argument, the text the device would answer to the command(s) that operation
transmits, and returns the Python return value, the successor state, and the
list of byte payloads written to the transport during the call.  A Python
exception (the IndexError reachable in _send_cmd) is modelled by Option:
a `none` result is an aborted call.
-/

/-- A Python runtime value passed as the parameter of a setter.  The setters
only distinguish `type(v) == int` from everything else, so a few
representative non-int variants suffice. -/
inductive PyVal where
  | int (n : Int)
  | float (q : ℚ)
  | str (s : String)
  | bool (b : Bool)
deriving DecidableEq

/-- `type(v) == int` in Python (note `type(True) != int` there, since the
exact type of a bool is bool). -/
def PyVal.isInt : PyVal → Bool
  | .int _ => true
  | _ => false

/-- The integer carried by a `PyVal.int`; junk elsewhere (the Python range
checks are short-circuited behind the type check, so the junk is never
compared). -/
def PyVal.toInt : PyVal → Int
  | .int n => n
  | _ => 0

/-- The `settings` dictionary of the class: three optional integers. -/
structure Settings where
  Vbias : Option Int
  VdifferenceMax : Option Int
  HardwareFilterBW : Option Int
deriving DecidableEq

/-- The mutable state of a `MEMS_device` instance: the HV flag, the settings
cache, the cached commanded position, and whether the serial port is open. -/
structure MEMS_device where
  is_HV_on : Bool
  settings : Settings
  posX : ℚ
  posY : ℚ
  serOpen : Bool
deriving DecidableEq

/-- Command normalization of `_send_cmd` (lines 74-81): strip a trailing
"\r\n" or "\n\r" pair, then a single trailing "\r", then append "\n" unless
the payload already ends with it.  The final step indexes `cmd[-1]`, which
raises IndexError when the stripped payload is empty; that abort is the
`none` result.  Payloads are byte strings, modelled as lists of (ASCII)
characters. -/
def strip2 (cmd : List Char) : List Char :=
  if cmd.reverse.take 2 = ['\n', '\r'] ∨ cmd.reverse.take 2 = ['\r', '\n'] then
    cmd.dropLast.dropLast
  else cmd

/-- Second stripping step of `_send_cmd`: drop one trailing carriage return. -/
def strip1cr (cmd : List Char) : List Char :=
  if cmd.reverse.take 1 = ['\r'] then cmd.dropLast else cmd

/-- Full `_send_cmd` payload normalization; `none` is the IndexError of
`cmd.decode()[-1]` on an empty stripped payload. -/
def sendCmdFormat (cmd : List Char) : Option (List Char) :=
  match (strip1cr (strip2 cmd)).getLast? with
  | none => none
  | some last =>
    if last != '\n' then some (strip1cr (strip2 cmd) ++ ['\n'])
    else some (strip1cr (strip2 cmd))

/-- `_send_cmd`: normalize, write the payload, sleep, read the device's
response.  The response `resp` is supplied by the environment; the function
returns it together with the bytes actually written. -/
def sendCmd (cmd : List Char) (resp : String) : Option (List Char × String) :=
  match sendCmdFormat cmd with
  | none => none
  | some c => some (c, resp)

/-- `set_Vbias` (lines 97-113): refuse while HV is on, validate
`type(v) == int` and `0 ≤ v ≤ 100`, send `MTI+VB <v>`, and commit the cache
only on the exact `MTI-OK\r\n` acknowledgement. -/
def set_Vbias (d : MEMS_device) (v : PyVal) (resp : String) :
    Option (Bool × MEMS_device × List (List Char)) :=
  if d.is_HV_on then some (false, d, [])
  else if v.isInt = false ∨ v.toInt < 0 ∨ 100 < v.toInt then some (false, d, [])
  else
    match sendCmd ("MTI+VB ".data ++ (toString v.toInt).data) resp with
    | none => none
    | some (c, r) =>
      if r = "MTI-OK\r\n" then
        some (true, { d with settings := { d.settings with Vbias := some v.toInt } }, [c])
      else some (false, d, [c])

/-- `set_VdifferenceMax` (lines 119-135): as `set_Vbias`, range [0,200],
command token `MTI+VD`. -/
def set_VdifferenceMax (d : MEMS_device) (v : PyVal) (resp : String) :
    Option (Bool × MEMS_device × List (List Char)) :=
  if d.is_HV_on then some (false, d, [])
  else if v.isInt = false ∨ v.toInt < 0 ∨ 200 < v.toInt then some (false, d, [])
  else
    match sendCmd ("MTI+VD ".data ++ (toString v.toInt).data) resp with
    | none => none
    | some (c, r) =>
      if r = "MTI-OK\r\n" then
        some (true, { d with settings := { d.settings with VdifferenceMax := some v.toInt } }, [c])
      else some (false, d, [c])

/-- `set_HardwareFilterBW` (lines 141-156): as `set_Vbias`, range [50,15000],
command token `MTI+BW`. -/
def set_HardwareFilterBW (d : MEMS_device) (v : PyVal) (resp : String) :
    Option (Bool × MEMS_device × List (List Char)) :=
  if d.is_HV_on then some (false, d, [])
  else if v.isInt = false ∨ v.toInt < 50 ∨ 15000 < v.toInt then some (false, d, [])
  else
    match sendCmd ("MTI+BW ".data ++ (toString v.toInt).data) resp with
    | none => none
    | some (c, r) =>
      if r = "MTI-OK\r\n" then
        some (true, { d with settings := { d.settings with HardwareFilterBW := some v.toInt } }, [c])
      else some (false, d, [c])

/-- `set_mirror_params` (lines 162-166): run the three setters in sequence,
then return `not(not b1 or not b2 or not b3)`. -/
def set_mirror_params (d : MEMS_device) (v1 v2 v3 : PyVal) (r1 r2 r3 : String) :
    Option (Bool × MEMS_device × List (List Char)) :=
  match set_Vbias d v1 r1 with
  | none => none
  | some (b1, d1, s1) =>
    match set_VdifferenceMax d1 v2 r2 with
    | none => none
    | some (b2, d2, s2) =>
      match set_HardwareFilterBW d2 v3 r3 with
      | none => none
      | some (b3, d3, s3) => some (!(!b1 || !b2 || !b3), d3, s1 ++ s2 ++ s3)

/-- `set_mirror_position` (lines 178-193): bound check `x<-1 or y<-1 or x>1
or y>1`, send `MTI+GT <x> <y> 0`, commit the cached position on `MTI-OK\r\n`.
The non-acknowledged branch falls off the end of the Python function and
returns None, modelled as an inner `none` return value.  The textual
rendering of the coordinates inside the command is not protocol-relevant
here, so `toString` of the rational stands in for Python's `str`. -/
def set_mirror_position (d : MEMS_device) (x y : ℚ) (resp : String) :
    Option (Option Bool × MEMS_device × List (List Char)) :=
  if x < -1 ∨ y < -1 ∨ 1 < x ∨ 1 < y then some (some false, d, [])
  else
    match sendCmd ("MTI+GT ".data ++ (toString x).data ++ " ".data
        ++ (toString y).data ++ " 0".data) resp with
    | none => none
    | some (c, r) =>
      if r = "MTI-OK\r\n" then some (some true, { d with posX := x, posY := y }, [c])
      else some (none, d, [c])

/-- `HV_on` (lines 209-224): refuse while any of the three settings is still
None, else send `MTI+EN` and set `is_HV_on` on the exact acknowledgement. -/
def HV_on (d : MEMS_device) (resp : String) :
    Option (Bool × MEMS_device × List (List Char)) :=
  if d.settings.Vbias = none ∨ d.settings.VdifferenceMax = none
      ∨ d.settings.HardwareFilterBW = none then
    some (false, d, [])
  else
    match sendCmd "MTI+EN\n".data resp with
    | none => none
    | some (c, r) =>
      if r = "MTI-OK\r\n" then some (true, { d with is_HV_on := true }, [c])
      else some (false, d, [c])

/-- `HV_off` (lines 230-237): always send `MTI+DI`; clear `is_HV_on` only on
the exact acknowledgement. -/
def HV_off (d : MEMS_device) (resp : String) :
    Option (Bool × MEMS_device × List (List Char)) :=
  match sendCmd "MTI+DI\n".data resp with
  | none => none
  | some (c, r) =>
    if r = "MTI-OK\r\n" then some (true, { d with is_HV_on := false }, [c])
    else some (false, d, [c])

/-- `exit_safely` (lines 253-285): re-center if the cached position is not
(0,0), turn HV off if it is on, write the raw logout token `MTI+EX\n`, read
one line, and close the port exactly when that line is the device's exit
acknowledgement.  Earlier step outcomes only print warnings. -/
def exit_safely (d : MEMS_device) (posResp hvResp logoutResp : String) :
    Option (Bool × MEMS_device × List (List Char)) :=
  match (if d.posX ≠ 0 ∨ d.posY ≠ 0 then
          (set_mirror_position d 0 0 posResp).map (fun p => (p.2.1, p.2.2))
        else some (d, [])) with
  | none => none
  | some (d1, s1) =>
    match (if d1.is_HV_on then
            (HV_off d1 hvResp).map (fun p => (p.2.1, p.2.2))
          else some (d1, [])) with
    | none => none
    | some (d2, s2) =>
      if logoutResp = "MTI-Device Exit Command Mode\r\n" then
        some (true, { d2 with serOpen := false }, s1 ++ s2 ++ ["MTI+EX\n".data])
      else some (false, d2, s1 ++ s2 ++ ["MTI+EX\n".data])

/-- Classification of the sign-on response in `__init__` (lines 38-51). -/
inductive SignOnOutcome where
  | noDeviceFound
  | alreadyLoggedIn
  | signedOn
deriving DecidableEq

/-- The state a fresh instance starts from (class-level defaults, lines
17-25), with the port just opened. -/
def initialDevice : MEMS_device :=
  { is_HV_on := false
    settings := { Vbias := none, VdifferenceMax := none, HardwareFilterBW := none }
    posX := 0
    posY := 0
    serOpen := true }

/-- `__init__` (lines 31-51): sign on and classify the response.  An empty
response is reported (printed) as no-device-found, the literal
`MTI-ERR InvalidCommand\r\n` is the benign already-logged-on case, anything
else is a successful sign-on; in every case the object is constructed. -/
def MEMS_device.init (resp : String) : MEMS_device × SignOnOutcome :=
  if resp = "" then (initialDevice, SignOnOutcome.noDeviceFound)
  else if resp = "MTI-ERR InvalidCommand\r\n" then (initialDevice, SignOnOutcome.alreadyLoggedIn)
  else (initialDevice, SignOnOutcome.signedOn)

/-! ### Basic facts about the payload normalization -/

lemma strip2_length (l : List Char) : l.length - 2 ≤ (strip2 l).length := by
  unfold strip2
  split
  · simp [List.length_dropLast]
    omega
  · omega

lemma strip1cr_length (l : List Char) : l.length - 1 ≤ (strip1cr l).length := by
  unfold strip1cr
  split
  · simp only [List.length_dropLast]
    omega
  · omega

lemma sendCmdFormat_isSome (cmd : List Char) (h : 4 ≤ cmd.length) :
    ∃ c, sendCmdFormat cmd = some c := by
  have h2 := strip2_length cmd
  have h1 := strip1cr_length (strip2 cmd)
  have hne : strip1cr (strip2 cmd) ≠ [] := by
    intro hnil
    rw [hnil] at h1
    simp at h1
    omega
  obtain ⟨last, hc⟩ : ∃ a, (strip1cr (strip2 cmd)).getLast? = some a := by
    cases hx : (strip1cr (strip2 cmd)).getLast? with
    | none => exact absurd (List.getLast?_eq_none_iff.mp hx) hne
    | some a => exact ⟨a, rfl⟩
  unfold sendCmdFormat
  rw [hc]
  by_cases hl : (last != '\n') = true
  · refine ⟨strip1cr (strip2 cmd) ++ ['\n'], ?_⟩
    show (if (last != '\n') = true then some (strip1cr (strip2 cmd) ++ ['\n'])
          else some (strip1cr (strip2 cmd))) = _
    rw [if_pos hl]
  · refine ⟨strip1cr (strip2 cmd), ?_⟩
    show (if (last != '\n') = true then some (strip1cr (strip2 cmd) ++ ['\n'])
          else some (strip1cr (strip2 cmd))) = _
    rw [if_neg hl]

lemma sendCmd_of_format (cmd c : List Char) (r : String) (h : sendCmdFormat cmd = some c) :
    sendCmd cmd r = some (c, r) := by
  unfold sendCmd
  rw [h]

/-! ### Closed forms for the parameter setters on valid input -/

lemma set_Vbias_eq (d : MEMS_device) (v : Int) (r : String) (h : d.is_HV_on = false)
    (h0 : 0 ≤ v) (h1 : v ≤ 100) :
    ∃ c, set_Vbias d (.int v) r =
      some (if r = "MTI-OK\r\n" then
              (true, { d with settings := { d.settings with Vbias := some v } }, [c])
            else (false, d, [c])) := by
  have hnot : ¬((PyVal.int v).isInt = false ∨ (PyVal.int v).toInt < 0
      ∨ 100 < (PyVal.int v).toInt) := by
    simp [PyVal.isInt, PyVal.toInt]
    omega
  obtain ⟨c, hc⟩ := sendCmdFormat_isSome ("MTI+VB ".data ++ (toString v).data) (by
    have h7 : ("MTI+VB ".data).length = 7 := rfl
    rw [List.length_append]
    omega)
  refine ⟨c, ?_⟩
  unfold set_Vbias
  rw [if_neg (by simp [h]), if_neg hnot]
  simp only [PyVal.toInt]
  rw [sendCmd_of_format _ _ _ hc]
  by_cases hr : r = "MTI-OK\r\n" <;> simp [hr]

lemma set_VdifferenceMax_eq (d : MEMS_device) (v : Int) (r : String) (h : d.is_HV_on = false)
    (h0 : 0 ≤ v) (h1 : v ≤ 200) :
    ∃ c, set_VdifferenceMax d (.int v) r =
      some (if r = "MTI-OK\r\n" then
              (true, { d with settings := { d.settings with VdifferenceMax := some v } }, [c])
            else (false, d, [c])) := by
  have hnot : ¬((PyVal.int v).isInt = false ∨ (PyVal.int v).toInt < 0
      ∨ 200 < (PyVal.int v).toInt) := by
    simp [PyVal.isInt, PyVal.toInt]
    omega
  obtain ⟨c, hc⟩ := sendCmdFormat_isSome ("MTI+VD ".data ++ (toString v).data) (by
    have h7 : ("MTI+VD ".data).length = 7 := rfl
    rw [List.length_append]
    omega)
  refine ⟨c, ?_⟩
  unfold set_VdifferenceMax
  rw [if_neg (by simp [h]), if_neg hnot]
  simp only [PyVal.toInt]
  rw [sendCmd_of_format _ _ _ hc]
  by_cases hr : r = "MTI-OK\r\n" <;> simp [hr]

lemma set_HardwareFilterBW_eq (d : MEMS_device) (v : Int) (r : String) (h : d.is_HV_on = false)
    (h0 : 50 ≤ v) (h1 : v ≤ 15000) :
    ∃ c, set_HardwareFilterBW d (.int v) r =
      some (if r = "MTI-OK\r\n" then
              (true, { d with settings := { d.settings with HardwareFilterBW := some v } }, [c])
            else (false, d, [c])) := by
  have hnot : ¬((PyVal.int v).isInt = false ∨ (PyVal.int v).toInt < 50
      ∨ 15000 < (PyVal.int v).toInt) := by
    simp [PyVal.isInt, PyVal.toInt]
    omega
  obtain ⟨c, hc⟩ := sendCmdFormat_isSome ("MTI+BW ".data ++ (toString v).data) (by
    have h7 : ("MTI+BW ".data).length = 7 := rfl
    rw [List.length_append]
    omega)
  refine ⟨c, ?_⟩
  unfold set_HardwareFilterBW
  rw [if_neg (by simp [h]), if_neg hnot]
  simp only [PyVal.toInt]
  rw [sendCmd_of_format _ _ _ hc]
  by_cases hr : r = "MTI-OK\r\n" <;> simp [hr]

lemma set_mirror_position_eq (d : MEMS_device) (x y : ℚ) (r : String)
    (hx1 : -1 ≤ x) (hx2 : x ≤ 1) (hy1 : -1 ≤ y) (hy2 : y ≤ 1) :
    ∃ c, set_mirror_position d x y r =
      some (if r = "MTI-OK\r\n" then (some true, { d with posX := x, posY := y }, [c])
            else (none, d, [c])) := by
  obtain ⟨c, hc⟩ := sendCmdFormat_isSome ("MTI+GT ".data ++ (toString x).data ++ " ".data
      ++ (toString y).data ++ " 0".data) (by
    have h7 : ("MTI+GT ".data).length = 7 := rfl
    rw [List.length_append, List.length_append, List.length_append, List.length_append]
    omega)
  refine ⟨c, ?_⟩
  unfold set_mirror_position
  rw [if_neg (by simp only [not_or, not_lt]; exact ⟨hx1, hy1, hx2, hy2⟩)]
  rw [sendCmd_of_format _ _ _ hc]
  by_cases hr : r = "MTI-OK\r\n" <;> simp [hr]

lemma HV_off_eq (d : MEMS_device) (r : String) :
    HV_off d r = some (if r = "MTI-OK\r\n" then (true, { d with is_HV_on := false }, ["MTI+DI\n".data])
                       else (false, d, ["MTI+DI\n".data])) := by
  have hc : sendCmdFormat "MTI+DI\n".data = some "MTI+DI\n".data := rfl
  unfold HV_off
  rw [sendCmd_of_format _ _ _ hc]
  by_cases hr : r = "MTI-OK\r\n" <;> simp [hr]

/-! ### Sample device states used by the concrete witnesses below -/

/-- A device with high voltage on. -/
def dOn : MEMS_device := { initialDevice with is_HV_on := true }

/-- A device with all three settings confirmed and HV still off. -/
def dReady : MEMS_device :=
  { initialDevice with
    settings := { Vbias := some 80, VdifferenceMax := some 120, HardwareFilterBW := some 1000 } }

/-! ### Claim theorems -/

/-- C1: while high voltage is on, every parameter setter
(`set_Vbias`, `set_VdifferenceMax`, `set_HardwareFilterBW`) returns false on
any input and any device response, transmits nothing, and leaves the whole
device state — in particular the cached settings — unchanged. -/
theorem setters_locked_while_HV_on (d : MEMS_device) (v : PyVal) (r : String)
    (h : d.is_HV_on = true) :
    set_Vbias d v r = some (false, d, []) ∧
    set_VdifferenceMax d v r = some (false, d, []) ∧
    set_HardwareFilterBW d v r = some (false, d, []) := by
  refine ⟨?_, ?_, ?_⟩ <;>
    simp [set_Vbias, set_VdifferenceMax, set_HardwareFilterBW, h]

/-- Witness for C1 at a concrete powered-on device. -/
theorem setters_locked_while_HV_on_witness :
    dOn.is_HV_on = true ∧
    (set_Vbias dOn (.int 10) "MTI-OK\r\n" = some (false, dOn, []) ∧
     set_VdifferenceMax dOn (.int 10) "MTI-OK\r\n" = some (false, dOn, []) ∧
     set_HardwareFilterBW dOn (.int 10) "MTI-OK\r\n" = some (false, dOn, [])) :=
  ⟨rfl, setters_locked_while_HV_on dOn (.int 10) "MTI-OK\r\n" rfl⟩

/-- C2: `HV_on` returns false, transmits nothing and changes nothing whenever
one of the three cached settings is still unset; with all three set it sends
`MTI+EN` and the HV flag becomes true exactly on the literal `MTI-OK\r\n`
response, the state being left untouched on any other response. -/
theorem HV_on_spec (d : MEMS_device) (r : String) :
    ((d.settings.Vbias = none ∨ d.settings.VdifferenceMax = none
        ∨ d.settings.HardwareFilterBW = none) →
      HV_on d r = some (false, d, [])) ∧
    (d.settings.Vbias ≠ none → d.settings.VdifferenceMax ≠ none →
      d.settings.HardwareFilterBW ≠ none →
      HV_on d r = some (if r = "MTI-OK\r\n" then
          (true, { d with is_HV_on := true }, ["MTI+EN\n".data])
        else (false, d, ["MTI+EN\n".data]))) := by
  constructor
  · intro h
    unfold HV_on
    rw [if_pos h]
  · intro h1 h2 h3
    unfold HV_on
    rw [if_neg (by simp [h1, h2, h3])]
    rw [sendCmd_of_format _ _ _ (rfl : sendCmdFormat "MTI+EN\n".data = some "MTI+EN\n".data)]
    by_cases hr : r = "MTI-OK\r\n" <;> simp [hr] <;> rfl

/-- Witness for C2: a fully configured device plus the OK response turns on. -/
theorem HV_on_spec_witness :
    dReady.settings.Vbias ≠ none ∧ dReady.settings.VdifferenceMax ≠ none ∧
    dReady.settings.HardwareFilterBW ≠ none ∧
    HV_on dReady "MTI-OK\r\n" =
      some (true, { dReady with is_HV_on := true }, ["MTI+EN\n".data]) :=
  ⟨by decide, by decide, by decide, by
    have h := (HV_on_spec dReady "MTI-OK\r\n").2 (by decide) (by decide) (by decide)
    simpa using h⟩

/-- C7: the `_send_cmd` normalization is the identity on already-normalized
payloads: whenever the payload ends with a line feed that is not preceded by
a carriage return, the normalization returns the payload itself. -/
theorem sendCmdFormat_idem (cmd : List Char)
    (h1 : cmd.getLast? = some '\n')
    (h2 : cmd.reverse.take 2 ≠ ['\n', '\r']) :
    sendCmdFormat cmd = some cmd := by
  have hrev : cmd.reverse.head? = some '\n' := by
    rw [List.head?_reverse]
    exact h1
  obtain ⟨t, ht⟩ : ∃ t, cmd.reverse = '\n' :: t := by
    cases hr : cmd.reverse with
    | nil => rw [hr] at hrev; simp at hrev
    | cons a t =>
      rw [hr] at hrev
      simp at hrev
      exact ⟨t, by rw [hrev]⟩
  have hcond : ¬(cmd.reverse.take 2 = ['\n', '\r'] ∨ cmd.reverse.take 2 = ['\r', '\n']) := by
    rintro (hA | hB)
    · exact h2 hA
    · rw [ht] at hB
      simp at hB
  have hs2 : strip2 cmd = cmd := by
    unfold strip2
    rw [if_neg hcond]
  have hcond1 : ¬(cmd.reverse.take 1 = ['\r']) := by
    rw [ht]
    simp
  have hs1 : strip1cr cmd = cmd := by
    unfold strip1cr
    rw [if_neg hcond1]
  unfold sendCmdFormat
  rw [hs2, hs1, h1]
  simp

/-- Witness for C7 at the already-normalized payload `MTI+VB 10\n`. -/
theorem sendCmdFormat_idem_witness :
    ("MTI+VB 10\n".data.getLast? = some '\n') ∧
    ("MTI+VB 10\n".data.reverse.take 2 ≠ ['\n', '\r']) ∧
    sendCmdFormat "MTI+VB 10\n".data = some "MTI+VB 10\n".data :=
  ⟨by decide, by decide, sendCmdFormat_idem "MTI+VB 10\n".data (by decide) (by decide)⟩

/-- C8: the normalization maps `MTI+VB 10\r\n` and the bare `MTI+VB 10` both
to `MTI+VB 10\n`. -/
theorem sendCmdFormat_examples :
    sendCmdFormat "MTI+VB 10\r\n".data = some "MTI+VB 10\n".data ∧
    sendCmdFormat "MTI+VB 10".data = some "MTI+VB 10\n".data := by
  exact ⟨rfl, rfl⟩

/-- C9: the sign-on classification of `__init__`: an empty response is the
reported-but-not-thrown no-device-found case and the constructed object is
the ordinary initial device, on which further operations work (here a
successful `set_Vbias`); the `MTI-ERR InvalidCommand\r\n` response is the
benign already-logged-on case; any other non-empty response is a successful
sign-on. -/
theorem init_signon_spec :
    (MEMS_device.init "").2 = SignOnOutcome.noDeviceFound ∧
    (MEMS_device.init "").1 = initialDevice ∧
    (MEMS_device.init "MTI-ERR InvalidCommand\r\n").2 = SignOnOutcome.alreadyLoggedIn ∧
    (∀ r, r ≠ "" → r ≠ "MTI-ERR InvalidCommand\r\n" →
      MEMS_device.init r = (initialDevice, SignOnOutcome.signedOn)) ∧
    (∃ c, set_Vbias (MEMS_device.init "").1 (.int 10) "MTI-OK\r\n" =
      some (true, { initialDevice with
        settings := { initialDevice.settings with Vbias := some 10 } }, [c])) := by
  refine ⟨rfl, rfl, rfl, ?_, ?_⟩
  · intro r hr1 hr2
    unfold MEMS_device.init
    rw [if_neg hr1, if_neg hr2]
  · obtain ⟨c, hc⟩ := set_Vbias_eq initialDevice 10 "MTI-OK\r\n" rfl (by norm_num) (by norm_num)
    exact ⟨c, by simpa using hc⟩

/-- Witness for C9: a generic greeting is classified as a successful sign-on. -/
theorem init_signon_witness :
    ("hello" : String) ≠ "" ∧ ("hello" : String) ≠ "MTI-ERR InvalidCommand\r\n" ∧
    MEMS_device.init "hello" = (initialDevice, SignOnOutcome.signedOn) :=
  ⟨by decide, by decide, init_signon_spec.2.2.2.1 "hello" (by decide) (by decide)⟩

/-- C10: the normalization (and with it `_send_cmd`) is not total: the empty
payload and the two-character line-ending pairs strip down to the empty byte
sequence, whose last-character check faults, so the call aborts (`none`)
instead of producing a response. -/
theorem sendCmd_aborts_on_degenerate :
    sendCmdFormat [] = none ∧
    sendCmdFormat ['\r', '\n'] = none ∧
    sendCmdFormat ['\n', '\r'] = none ∧
    (∀ r, sendCmd [] r = none ∧ sendCmd ['\r', '\n'] r = none ∧ sendCmd ['\n', '\r'] r = none) := by
  refine ⟨rfl, rfl, rfl, fun r => ⟨rfl, rfl, rfl⟩⟩

/-- C3: with HV off, each setter accepts exactly the integers of its range
(`Vbias` [0,100], `VdifferenceMax` [0,200], `HardwareFilterBW` [50,15000]):
in range with the exact `MTI-OK\r\n` response it returns true and commits the
value to the cache; out-of-range integers and non-integer values fail with
nothing transmitted and the state untouched; and any response other than the
acknowledgement literal leaves the state untouched and returns false. -/
theorem setters_range_spec (d : MEMS_device) (h : d.is_HV_on = false) :
    (∀ v : Int, 0 ≤ v → v ≤ 100 →
      ∃ c, set_Vbias d (.int v) "MTI-OK\r\n" =
        some (true, { d with settings := { d.settings with Vbias := some v } }, [c])) ∧
    (∀ v : Int, v < 0 ∨ 100 < v → ∀ r, set_Vbias d (.int v) r = some (false, d, [])) ∧
    (∀ p : PyVal, p.isInt = false → ∀ r, set_Vbias d p r = some (false, d, [])) ∧
    (∀ v : Int, 0 ≤ v → v ≤ 100 → ∀ r, r ≠ "MTI-OK\r\n" →
      ∃ c, set_Vbias d (.int v) r = some (false, d, [c])) ∧
    (∀ v : Int, 0 ≤ v → v ≤ 200 →
      ∃ c, set_VdifferenceMax d (.int v) "MTI-OK\r\n" =
        some (true, { d with settings := { d.settings with VdifferenceMax := some v } }, [c])) ∧
    (∀ v : Int, v < 0 ∨ 200 < v → ∀ r, set_VdifferenceMax d (.int v) r = some (false, d, [])) ∧
    (∀ p : PyVal, p.isInt = false → ∀ r, set_VdifferenceMax d p r = some (false, d, [])) ∧
    (∀ v : Int, 0 ≤ v → v ≤ 200 → ∀ r, r ≠ "MTI-OK\r\n" →
      ∃ c, set_VdifferenceMax d (.int v) r = some (false, d, [c])) ∧
    (∀ v : Int, 50 ≤ v → v ≤ 15000 →
      ∃ c, set_HardwareFilterBW d (.int v) "MTI-OK\r\n" =
        some (true, { d with settings := { d.settings with HardwareFilterBW := some v } }, [c])) ∧
    (∀ v : Int, v < 50 ∨ 15000 < v → ∀ r, set_HardwareFilterBW d (.int v) r = some (false, d, [])) ∧
    (∀ p : PyVal, p.isInt = false → ∀ r, set_HardwareFilterBW d p r = some (false, d, [])) ∧
    (∀ v : Int, 50 ≤ v → v ≤ 15000 → ∀ r, r ≠ "MTI-OK\r\n" →
      ∃ c, set_HardwareFilterBW d (.int v) r = some (false, d, [c])) := by
  refine ⟨?_, ?_, ?_, ?_, ?_, ?_, ?_, ?_, ?_, ?_, ?_, ?_⟩
  · intro v h0 h1
    obtain ⟨c, hc⟩ := set_Vbias_eq d v "MTI-OK\r\n" h h0 h1
    exact ⟨c, by simpa using hc⟩
  · intro v hv r
    unfold set_Vbias
    rw [if_neg (by simp [h])]
    simp only [PyVal.isInt, PyVal.toInt]
    rw [if_pos (Or.inr hv)]
  · intro p hp r
    unfold set_Vbias
    rw [if_neg (by simp [h]), if_pos (Or.inl hp)]
  · intro v h0 h1 r hr
    obtain ⟨c, hc⟩ := set_Vbias_eq d v r h h0 h1
    exact ⟨c, by rw [hc, if_neg hr]⟩
  · intro v h0 h1
    obtain ⟨c, hc⟩ := set_VdifferenceMax_eq d v "MTI-OK\r\n" h h0 h1
    exact ⟨c, by simpa using hc⟩
  · intro v hv r
    unfold set_VdifferenceMax
    rw [if_neg (by simp [h])]
    simp only [PyVal.isInt, PyVal.toInt]
    rw [if_pos (Or.inr hv)]
  · intro p hp r
    unfold set_VdifferenceMax
    rw [if_neg (by simp [h]), if_pos (Or.inl hp)]
  · intro v h0 h1 r hr
    obtain ⟨c, hc⟩ := set_VdifferenceMax_eq d v r h h0 h1
    exact ⟨c, by rw [hc, if_neg hr]⟩
  · intro v h0 h1
    obtain ⟨c, hc⟩ := set_HardwareFilterBW_eq d v "MTI-OK\r\n" h h0 h1
    exact ⟨c, by simpa using hc⟩
  · intro v hv r
    unfold set_HardwareFilterBW
    rw [if_neg (by simp [h])]
    simp only [PyVal.isInt, PyVal.toInt]
    rw [if_pos (Or.inr hv)]
  · intro p hp r
    unfold set_HardwareFilterBW
    rw [if_neg (by simp [h]), if_pos (Or.inl hp)]
  · intro v h0 h1 r hr
    obtain ⟨c, hc⟩ := set_HardwareFilterBW_eq d v r h h0 h1
    exact ⟨c, by rw [hc, if_neg hr]⟩

/-- Witness for C3: `set_Vbias 10` on a fresh device with the OK response
commits the value. -/
theorem setters_range_witness :
    initialDevice.is_HV_on = false ∧
    (∃ c, set_Vbias initialDevice (.int 10) "MTI-OK\r\n" =
      some (true, { initialDevice with
        settings := { initialDevice.settings with Vbias := some 10 } }, [c])) :=
  ⟨rfl, (setters_range_spec initialDevice rfl).1 10 (by decide) (by decide)⟩

/-- C5: `set_mirror_position` rejects any coordinate outside [-1,1] with a
false return, no transmission and no state change; inside the closed range
it commits the cached position exactly on the `MTI-OK\r\n` response, and on
any other response the position is unchanged and the Python function falls
through returning None (the falsy no-success outcome). -/
theorem set_mirror_position_spec (d : MEMS_device) :
    (∀ x y : ℚ, (x < -1 ∨ y < -1 ∨ 1 < x ∨ 1 < y) → ∀ r,
      set_mirror_position d x y r = some (some false, d, [])) ∧
    (∀ x y : ℚ, -1 ≤ x → x ≤ 1 → -1 ≤ y → y ≤ 1 →
      (∃ c, set_mirror_position d x y "MTI-OK\r\n" =
        some (some true, { d with posX := x, posY := y }, [c])) ∧
      (∀ r, r ≠ "MTI-OK\r\n" →
        ∃ c, set_mirror_position d x y r = some (none, d, [c]))) := by
  constructor
  · intro x y hb r
    unfold set_mirror_position
    rw [if_pos hb]
  · intro x y hx1 hx2 hy1 hy2
    constructor
    · obtain ⟨c, hc⟩ := set_mirror_position_eq d x y "MTI-OK\r\n" hx1 hx2 hy1 hy2
      exact ⟨c, by simpa using hc⟩
    · intro r hr
      obtain ⟨c, hc⟩ := set_mirror_position_eq d x y r hx1 hx2 hy1 hy2
      exact ⟨c, by rw [hc, if_neg hr]⟩

/-- Witness for C5: x = 2 is rejected with the cache untouched. -/
theorem set_mirror_position_witness :
    ((2 : ℚ) < -1 ∨ (0 : ℚ) < -1 ∨ 1 < (2 : ℚ) ∨ 1 < (0 : ℚ)) ∧
    set_mirror_position initialDevice 2 0 "MTI-OK\r\n" =
      some (some false, initialDevice, []) :=
  ⟨by decide,
   (set_mirror_position_spec initialDevice).1 2 0 (by decide) "MTI-OK\r\n"⟩

/-- C6: `set_mirror_params` runs all three setters in order — each on the
state left by the previous one, with no early stop on failure — and its
return value is exactly the conjunction of the three individual returns. -/
theorem set_mirror_params_spec (d : MEMS_device) (v1 v2 v3 : PyVal) (r1 r2 r3 : String)
    (b1 b2 b3 : Bool) (d1 d2 d3 : MEMS_device) (s1 s2 s3 : List (List Char))
    (h1 : set_Vbias d v1 r1 = some (b1, d1, s1))
    (h2 : set_VdifferenceMax d1 v2 r2 = some (b2, d2, s2))
    (h3 : set_HardwareFilterBW d2 v3 r3 = some (b3, d3, s3)) :
    set_mirror_params d v1 v2 v3 r1 r2 r3 = some (b1 && b2 && b3, d3, s1 ++ s2 ++ s3) := by
  simp only [set_mirror_params, h1, h2, h3]
  cases b1 <;> cases b2 <;> cases b3 <;> rfl

/-- Devices reached midway through the C6 witness run. -/
def dW2 : MEMS_device :=
  { initialDevice with
    settings := { Vbias := none, VdifferenceMax := some 50, HardwareFilterBW := none } }

def dW3 : MEMS_device :=
  { initialDevice with
    settings := { Vbias := none, VdifferenceMax := some 50, HardwareFilterBW := some 100 } }

/-- Witness for C6: the first setter fails on an out-of-range value, yet the
other two still run and commit; the aggregate reports failure. -/
theorem set_mirror_params_witness :
    set_mirror_params initialDevice (.int 200) (.int 50) (.int 100)
        "MTI-OK\r\n" "MTI-OK\r\n" "MTI-OK\r\n" =
      some (false, dW3, ["MTI+VD 50\n".data, "MTI+BW 100\n".data]) :=
  set_mirror_params_spec initialDevice (.int 200) (.int 50) (.int 100)
    "MTI-OK\r\n" "MTI-OK\r\n" "MTI-OK\r\n"
    false true true initialDevice dW2 dW3 [] ["MTI+VD 50\n".data] ["MTI+BW 100\n".data]
    (by decide) (by decide) (by decide)

/-- C4: `exit_safely` never aborts and runs its steps in order whatever the
re-center and HV-off responses are; the logout token is always written; the
HV flag afterwards reflects the (attempted) disable step alone; and the port
is closed with a true return exactly when the logout response is the literal
`MTI-Device Exit Command Mode\r\n` — on any other logout response the port
state is untouched and the sequence reports failure, independent of how the
earlier steps fared. -/
theorem exit_safely_spec (d : MEMS_device) (pr hr lr : String) :
    ∃ b d' s, exit_safely d pr hr lr = some (b, d', s) ∧
      (b = true ↔ lr = "MTI-Device Exit Command Mode\r\n") ∧
      d'.serOpen = (if lr = "MTI-Device Exit Command Mode\r\n" then false else d.serOpen) ∧
      d'.is_HV_on = (d.is_HV_on && !(decide (hr = "MTI-OK\r\n"))) ∧
      "MTI+EX\n".data ∈ s := by
  obtain ⟨d1, s1, hstep1, hHV1, hser1⟩ :
      ∃ d1 s1,
        (if d.posX ≠ 0 ∨ d.posY ≠ 0 then
          (set_mirror_position d 0 0 pr).map (fun p => (p.2.1, p.2.2))
        else some (d, [])) = some (d1, s1) ∧
        d1.is_HV_on = d.is_HV_on ∧ d1.serOpen = d.serOpen := by
    by_cases hp : d.posX ≠ 0 ∨ d.posY ≠ 0
    · obtain ⟨c, hc⟩ := set_mirror_position_eq d 0 0 pr
        (by norm_num) (by norm_num) (by norm_num) (by norm_num)
      rw [if_pos hp, hc]
      by_cases hok : pr = "MTI-OK\r\n"
      · rw [if_pos hok]
        exact ⟨_, _, rfl, rfl, rfl⟩
      · rw [if_neg hok]
        exact ⟨_, _, rfl, rfl, rfl⟩
    · rw [if_neg hp]
      exact ⟨d, [], rfl, rfl, rfl⟩
  obtain ⟨d2, s2, hstep2, hHV2, hser2⟩ :
      ∃ d2 s2,
        (if d1.is_HV_on then (HV_off d1 hr).map (fun p => (p.2.1, p.2.2))
         else some (d1, [])) = some (d2, s2) ∧
        d2.is_HV_on = (d1.is_HV_on && !(decide (hr = "MTI-OK\r\n"))) ∧
        d2.serOpen = d1.serOpen := by
    by_cases hv : d1.is_HV_on = true
    · rw [if_pos hv, HV_off_eq]
      by_cases hok : hr = "MTI-OK\r\n"
      · rw [if_pos hok]
        refine ⟨_, _, rfl, ?_, rfl⟩
        simp [hv, hok]
      · rw [if_neg hok]
        refine ⟨_, _, rfl, ?_, rfl⟩
        simp [hv, hok]
    · rw [if_neg hv]
      refine ⟨d1, [], rfl, ?_, rfl⟩
      simp only [Bool.not_eq_true] at hv
      simp [hv]
  simp only [exit_safely, hstep1, hstep2]
  by_cases hl : lr = "MTI-Device Exit Command Mode\r\n"
  · rw [if_pos hl]
    refine ⟨true, _, _, rfl, by simp [hl], ?_, ?_, ?_⟩
    · rw [if_pos hl]
    · rw [show ({ d2 with serOpen := false } : MEMS_device).is_HV_on = d2.is_HV_on from rfl,
        hHV2, hHV1]
    · simp
  · rw [if_neg hl]
    refine ⟨false, d2, _, rfl, by simp [hl], ?_, ?_, ?_⟩
    · rw [if_neg hl, hser2, hser1]
    · rw [hHV2, hHV1]
    · simp
